import Mathlib

/-!
# ShareLit backend — moderation/visibility ledger, shallow embedding

This file embeds the state-manipulating parts of the ShareLit backend
revisions found in the repository:

* `part_000` (first revision, the JSON-file-persisted ledger): routes
  `/upload`, `/admin/approve`, `/admin/reject`, `/download/:fileId/:userId`,
  `/upvote`, `/files/:userId`, `/admin/stats`.  A later revision in the same
  file adds an already-approved conflict check to `/admin/approve` and an
  on-disk existence check to download; those variants are embedded as
  `approveV2_part000` and `downloadV2_part000`.
* `part_002` (MariaDB revision, in-memory fallback branch): `/download`,
  `/upvote`, `/files/:userId`.
* `backend.js` (meta.json revision, second document): `/upload` with the
  admin auto-approval fast path and `/upvote/:id`, plus the first document's
  mock `/download/:fileId/:userId`.

JSON-level conventions of the embedding: HTTP error responses are modelled
as `Except.error (status, message)`; handlers return the response together
with the post-state (errors leave the state unchanged, as in the source,
where every error return precedes any mutation of the ledger arrays).
Timestamps (`new Date()`) and random ids (`genId()`) are irrelevant to the
properties proved here; random ids are taken as explicit arguments and
timestamps are omitted from the records.  JS truthiness of the optional
request-body strings is modelled with `Option String` (absent = falsy).
-/

/-- A logged-in user, as pushed onto `users` by `/login`. -/
structure User where
  id : String
  name : String
  isAdmin : Bool
  isAnonymous : Bool
deriving Repr, DecidableEq

/-- File metadata as stored by `part_000`'s `/upload` (`fileMeta`). -/
structure FileRec where
  id : String
  originalName : String
  uploaderId : Option String
  uploaderName : Option String
  isAnonymous : Bool
  isApproved : Bool
  upvotes : Nat
deriving Repr, DecidableEq

/-- An `UpvoteRecord` as pushed onto `votes` by `part_000`'s `/upvote`. -/
structure Vote where
  id : String
  userId : String
  fileId : String
deriving Repr, DecidableEq

/-- The module-level mutable state of the `part_000` revision:
`users`, `files`, `votes` arrays (comments are out of scope). -/
structure St where
  users : List User
  files : List FileRec
  votes : List Vote
deriving Repr, DecidableEq

/-- The uploaded file object produced by multer (`req.file`). -/
structure UploadedFile where
  filename : String
  originalname : String
  mimetype : String
  size : Nat
deriving Repr, DecidableEq

/-- An HTTP error response: status code and error message. -/
abbrev Err := Nat × String

/-- `const ADMINPASSWORD = 'Shiro'` (`part_000`). -/
def ADMINPASSWORD : String := "Shiro"

/-- `getAdminByIdAndPassword` (`part_000`): the caller is an admin iff some
user has the given id, is flagged admin, and the supplied password equals
the shared constant. -/
def getAdminByIdAndPassword (users : List User) (id password : String) :
    Option User :=
  users.find? fun u => u.id == id && u.isAdmin && password == ADMINPASSWORD

/-- `const allowedTypes = [...]` (`part_000` and `backend.js`). -/
def allowedTypes : List String :=
  ["application/pdf", "application/epub+zip", "audio/mpeg",
   "image/jpeg", "image/jpg", "image/png"]

/-- `const maxFileSize = 10 * 1024 * 1024`. -/
def maxFileSize : Nat := 10 * 1024 * 1024

/-- The multer acceptance predicate assembled from the source's
`fileFilter: cb(null, allowedTypes.includes(file.mimetype))` and
`limits: { fileSize: maxFileSize }`: a file reaches the route handler as
`req.file` iff its declared mime type is allowed and its size does not
exceed the limit. -/
def multerAccept (mimetype : String) (size : Nat) : Bool :=
  allowedTypes.contains mimetype && size ≤ maxFileSize

/-- The `fileMeta` object literal built by `part_000`'s `/upload`
(lines 121-130): `isApproved: false`, `upvotes: 0` unconditionally. -/
def mkFileMeta (file : UploadedFile) (uploaderId uploaderName : Option String)
    (isAnonymous : Bool) : FileRec :=
  { id := file.filename
    originalName := file.originalname
    uploaderId := uploaderId
    uploaderName := uploaderName
    isAnonymous := isAnonymous
    isApproved := false
    upvotes := 0 }

/-- `part_000` `app.post('/upload')` (lines 115-135): validates presence of
the file and of uploader info, then appends `mkFileMeta` to `files`. -/
def upload_part000 (st : St) (file? : Option UploadedFile)
    (uploaderId uploaderName : Option String) (isAnonymous : Bool) :
    Except Err FileRec × St :=
  match file? with
  | none => (.error (400, "No file uploaded"), st)
  | some file =>
    if uploaderId.isNone && !isAnonymous && uploaderName.isNone then
      (.error (400, "Uploader info required"), st)
    else
      let meta := mkFileMeta file uploaderId uploaderName isAnonymous
      (.ok meta, { st with files := st.files ++ [meta] })

/-- `part_000` `/upload` composed with the multer filter: a file failing
`multerAccept` never reaches the handler as `req.file` (multer drops it),
so the handler takes the `No file uploaded` branch. -/
def uploadWithFilter_part000 (st : St) (file : UploadedFile)
    (uploaderId uploaderName : Option String) (isAnonymous : Bool) :
    Except Err FileRec × St :=
  upload_part000 st
    (if multerAccept file.mimetype file.size then some file else none)
    uploaderId uploaderName isAnonymous

/-- In-place mutation `file.isApproved = true` of the first element found by
`files.find(f => f.id === fileId)`. -/
def approveFirst (fileId : String) : List FileRec → List FileRec
  | [] => []
  | f :: fs =>
    if f.id == fileId then { f with isApproved := true } :: fs
    else f :: approveFirst fileId fs

/-- `files.splice(fileIndex, 1)` where `fileIndex` is the first index with
`f.id === fileId`. -/
def removeFirst (fileId : String) : List FileRec → List FileRec
  | [] => []
  | f :: fs => if f.id == fileId then fs else f :: removeFirst fileId fs

/-- In-place mutation `file.upvotes = (file.upvotes || 0) + 1` of the first
element found by `files.find(f => f.id === fileId)`. -/
def incUpvoteFirst (fileId : String) : List FileRec → List FileRec
  | [] => []
  | f :: fs =>
    if f.id == fileId then { f with upvotes := f.upvotes + 1 } :: fs
    else f :: incUpvoteFirst fileId fs

/-- `part_000` `app.post('/admin/approve')` (lines 138-149, first revision):
admin gate, not-found check, then sets `isApproved = true`.  There is no
already-approved conflict check in this revision. -/
def approve_part000 (st : St) (fileId adminId adminPassword : String) :
    Except Err Unit × St :=
  if (getAdminByIdAndPassword st.users adminId adminPassword).isNone then
    (.error (403, "Admin only or wrong password"), st)
  else
    match st.files.find? (fun f => f.id == fileId) with
    | none => (.error (404, "File not found"), st)
    | some _ => (.ok (), { st with files := approveFirst fileId st.files })

/-- `part_000` `app.post('/admin/approve')` (lines 901-913, later revision):
same as `approve_part000` but with
`if (file.isApproved) return res.status(400) 'File already approved'`. -/
def approveV2_part000 (st : St) (fileId adminId adminPassword : String) :
    Except Err Unit × St :=
  if (getAdminByIdAndPassword st.users adminId adminPassword).isNone then
    (.error (403, "Admin only or wrong password"), st)
  else
    match st.files.find? (fun f => f.id == fileId) with
    | none => (.error (404, "File not found"), st)
    | some f =>
      if f.isApproved then (.error (400, "File already approved"), st)
      else (.ok (), { st with files := approveFirst fileId st.files })

/-- `part_000` `app.post('/admin/reject')` (lines 152-168): admin gate,
not-found check, best-effort blob unlink (external, ignored here), then
splices the record out of `files`.  The `votes` array is not touched. -/
def reject_part000 (st : St) (fileId adminId adminPassword : String) :
    Except Err Unit × St :=
  if (getAdminByIdAndPassword st.users adminId adminPassword).isNone then
    (.error (403, "Admin only or wrong password"), st)
  else
    match st.files.find? (fun f => f.id == fileId) with
    | none => (.error (404, "File not found"), st)
    | some _ => (.ok (), { st with files := removeFirst fileId st.files })

/-- `part_000` `app.get('/download/:fileId/:userId')` (lines 171-181, first
revision): requires the caller to resolve to a known user (403 otherwise)
and the file to be in the ledger (404 otherwise), then serves the file.
No approval-status check is performed.  Returns the `originalName` used
for `res.download`. -/
def download_part000 (st : St) (fileId userId : String) :
    Except Err String :=
  match st.users.find? (fun u => u.id == userId) with
  | none => .error (403, "User not found")
  | some _ =>
    match st.files.find? (fun f => f.id == fileId) with
    | none => .error (404, "File not found")
    | some file => .ok file.originalName

/-- `part_000` `app.get('/download/:fileId/:userId')` (lines 1196-1208,
later revision): as `download_part000` plus an on-disk existence check
(`fs.existsSync`), modelled by the `disk` list of stored blob names.
Still no approval-status check. -/
def downloadV2_part000 (st : St) (disk : List String)
    (fileId userId : String) : Except Err String :=
  match st.users.find? (fun u => u.id == userId) with
  | none => .error (403, "User not found")
  | some _ =>
    match st.files.find? (fun f => f.id == fileId) with
    | none => .error (404, "File not found")
    | some file =>
      if disk.contains fileId then .ok file.originalName
      else .error (404, "File not found on disk")

/-- `part_000` `app.post('/upvote')` (lines 184-202): both user and file
must exist (400 `Invalid user or file`), a prior vote for the pair is a
400 `User already voted`, otherwise a vote record is appended and the
file's `upvotes` incremented; responds with the new count.  The fresh
`genId()` for the vote is passed in as `voteId`.  No approval-status
check is performed on the file. -/
def upvote_part000 (st : St) (userId fileId voteId : String) :
    Except Err Nat × St :=
  match st.users.find? (fun u => u.id == userId),
        st.files.find? (fun f => f.id == fileId) with
  | some _, some file =>
    if (st.votes.find? fun v =>
          v.userId == userId && v.fileId == fileId).isSome then
      (.error (400, "User already voted"), st)
    else
      (.ok (file.upvotes + 1),
        { st with
            votes := st.votes ++ [{ id := voteId, userId := userId,
                                    fileId := fileId }]
            files := incUpvoteFirst fileId st.files })
  | _, _ => (.error (400, "Invalid user or file"), st)

/-- `part_000` `app.get('/files/:userId')` (lines 205-212): the caller must
resolve to a known user (403 otherwise); admins see all files, others only
the approved ones. -/
def listFiles_part000 (st : St) (userId : String) :
    Except Err (List FileRec) :=
  match st.users.find? (fun u => u.id == userId) with
  | none => .error (403, "User not found")
  | some u =>
    .ok (if u.isAdmin then st.files
         else st.files.filter fun f => f.isApproved)

/-- The `/admin/stats` response payload (`part_000`, lines 230-241). -/
structure Stats where
  totalFiles : Nat
  approved : Nat
  pending : Nat
  totalUpvotes : Nat
deriving Repr, DecidableEq

/-- `part_000` `app.get('/admin/stats/:adminId/:adminPassword')`
(lines 230-241): admin gate, then counts; `totalUpvotes` is the length of
the whole `votes` array. -/
def adminStats_part000 (st : St) (adminId adminPassword : String) :
    Except Err Stats :=
  if (getAdminByIdAndPassword st.users adminId adminPassword).isNone then
    .error (403, "Admin only or wrong password")
  else
    .ok { totalFiles := st.files.length
          approved := (st.files.filter fun f => f.isApproved).length
          pending := (st.files.filter fun f => !f.isApproved).length
          totalUpvotes := st.votes.length }

/-- Sum of the per-record `upvotes` counters over a list of file records
(the quantity `files.reduce((total, f) => total + f.upvotes, 0)` that the
`part_002` revision's stats endpoint reports). -/
def sumUpvotes (files : List FileRec) : Nat :=
  files.foldl (fun total f => total + f.upvotes) 0

/-- File metadata as stored by the `part_002` revision's in-memory `/upload`
branch (the raw `buffer` of bytes is kept with the record; it is irrelevant
to the claims and omitted). -/
structure File2 where
  id : String
  originalName : String
  mimeType : String
  fileSize : Nat
  uploaderId : String
  uploaderName : String
  isApproved : Bool
  upvotes : Nat
deriving Repr, DecidableEq

/-- The in-memory state of the `part_002` revision (fallback branch):
`users`, `files`, and the nested vote map `votes[userId][fileId] = true`,
modelled as the list of `(userId, fileId)` pairs that are set. -/
structure St2 where
  users : List User
  files : List File2
  votes : List (String × String)
deriving Repr, DecidableEq

/-- The admin test used by `part_002`'s `/download` and `/files` routes:
`user && user.isAdmin` after `users.find(u => u.id === userId)`. -/
def userIsAdmin2 (st : St2) (userId : String) : Bool :=
  match st.users.find? (fun u => u.id == userId) with
  | some u => u.isAdmin
  | none => false

/-- `part_002` `app.get('/download/:fileId/:userId')` (lines 186-215,
in-memory branch): 404 if the file is not in the ledger; 403
`File not approved` if it is not approved and the caller is not a resolved
admin; otherwise the buffer is sent (modelled by returning the
`originalName` and `mimeType` headers). -/
def download_part002 (st : St2) (fileId userId : String) :
    Except Err (String × String) :=
  match st.files.find? (fun f => f.id == fileId) with
  | none => .error (404, "File not found")
  | some file =>
    if !file.isApproved && !userIsAdmin2 st userId then
      .error (403, "File not approved")
    else .ok (file.originalName, file.mimeType)

/-- In-place `file.upvotes++` on the first element found by
`files.find(f => f.id === fileId && f.isApproved)`. -/
def incUpvoteFirst2 (fileId : String) : List File2 → List File2
  | [] => []
  | f :: fs =>
    if f.id == fileId && f.isApproved then
      { f with upvotes := f.upvotes + 1 } :: fs
    else f :: incUpvoteFirst2 fileId fs

/-- `part_002` `app.post('/upvote')` (lines 218-239, in-memory branch): the
double-vote check on `votes[userId][fileId]` runs first (400
`Already voted`); then the file must exist *and* be approved (404
`File not found or not approved`); on success the counter of the first
approved record with the id is incremented and the vote pair recorded. -/
def upvote_part002 (st : St2) (userId fileId : String) :
    Except Err Nat × St2 :=
  if st.votes.contains (userId, fileId) then
    (.error (400, "Already voted"), st)
  else
    match st.files.find? (fun f => f.id == fileId && f.isApproved) with
    | none => (.error (404, "File not found or not approved"), st)
    | some file =>
      (.ok (file.upvotes + 1),
        { st with files := incUpvoteFirst2 fileId st.files
                  votes := st.votes ++ [(userId, fileId)] })

/-- `part_002` `app.get('/files/:userId')` (lines 242-262, in-memory
branch): a resolved admin caller gets all files, every other caller
(including an unknown user id) only the approved ones. -/
def listFiles_part002 (st : St2) (userId : String) : List File2 :=
  if userIsAdmin2 st userId then st.files
  else st.files.filter fun f => f.isApproved

/-- File metadata (`meta`) as stored by the `backend.js` meta.json revision
(second document); `comments` omitted as out of scope. -/
structure Meta where
  id : String
  originalname : String
  uploader : String
  downloads : Nat
  upvotes : Nat
  approved : Bool
deriving Repr, DecidableEq

/-- JavaScript's `String.prototype.toLowerCase()`, character by character
(the uploader names involved are ASCII). -/
def jsToLowerCase (s : String) : String :=
  ⟨s.data.map Char.toLower⟩

/-- The `meta` object literal built by `backend.js`'s `/upload`
(lines 243-252): `approved: isUploaderAdmin` where
`isUploaderAdmin = req.body.uploader.toLowerCase() === 'admin'` — the
admin auto-approval fast path. -/
def mkMeta (file : UploadedFile) (uploader : String) : Meta :=
  { id := file.filename
    originalname := file.originalname
    uploader := uploader
    downloads := 0
    upvotes := 0
    approved := jsToLowerCase uploader == "admin" }

/-- `backend.js` `app.post('/upload')` (lines 239-256): validates presence
of the file and the uploader name, then unshifts `mkMeta` onto
`filesMeta`. -/
def upload_backendMeta (filesMeta : List Meta) (file? : Option UploadedFile)
    (uploader? : Option String) : Except Err Meta × List Meta :=
  match file?, uploader? with
  | some file, some uploader =>
    let meta := mkMeta file uploader
    (.ok meta, meta :: filesMeta)
  | _, _ => (.error (400, "Missing file or uploader name"), filesMeta)

/-- In-place `meta.upvotes = (meta.upvotes || 0) + 1` on the first element
found by `filesMeta.find(f => f.id === id)`. -/
def incMetaUpvoteFirst (id : String) : List Meta → List Meta
  | [] => []
  | f :: fs =>
    if f.id == id then { f with upvotes := f.upvotes + 1 } :: fs
    else f :: incMetaUpvoteFirst id fs

/-- `backend.js` `app.post('/upvote/:id')` (lines 288-295): 404 if the file
is not in the ledger, otherwise unconditionally increments its `upvotes`
and responds with the new count.  There is no caller identity, no vote
ledger, and no double-vote check in this revision. -/
def upvote_backendMeta (filesMeta : List Meta) (id : String) :
    Except Err Nat × List Meta :=
  match filesMeta.find? (fun f => f.id == id) with
  | none => (.error (404, "File not found"), filesMeta)
  | some f => (.ok (f.upvotes + 1), incMetaUpvoteFirst id filesMeta)

/-- `backend.js` first document, `app.get('/download/:fileId/:userId')`
(lines 135-140): the caller must resolve to a known user (403
`User not found`), then a mock success payload is returned. -/
def download_backendMock (users : List User) (fileId userId : String) :
    Except Err String :=
  match users.find? (fun u => u.id == userId) with
  | none => .error (403, "User not found")
  | some _ => .ok fileId

/-- Helper: after `approveFirst`, looking the id up again finds the approved
copy of the record that the original lookup found. -/
theorem approveFirst_find (fileId : String) (l : List FileRec) (f : FileRec)
    (h : l.find? (fun x => x.id == fileId) = some f) :
    (approveFirst fileId l).find? (fun g => g.id == fileId)
      = some { f with isApproved := true } := by
  induction l with
  | nil => simp [List.find?] at h
  | cons a as ih =>
    by_cases ha : (a.id == fileId) = true
    · rw [List.find?_cons_of_pos (p := fun x : FileRec => x.id == fileId) _ ha] at h
      injection h with h
      subst h
      unfold approveFirst
      rw [if_pos ha]
      exact List.find?_cons_of_pos (p := fun g : FileRec => g.id == fileId) _ ha
    · rw [List.find?_cons_of_neg (p := fun x : FileRec => x.id == fileId) _
        (by simpa using ha)] at h
      unfold approveFirst
      rw [if_neg ha, List.find?_cons_of_neg (p := fun g : FileRec => g.id == fileId) _
        (by simpa using ha)]
      exact ih h

/-- Helper: the approved copy of the record found by id is a member of the
`approveFirst` result. -/
theorem approveFirst_mem (fileId : String) (l : List FileRec) (f : FileRec)
    (h : l.find? (fun x => x.id == fileId) = some f) :
    { f with isApproved := true } ∈ approveFirst fileId l := by
  induction l with
  | nil => simp [List.find?] at h
  | cons a as ih =>
    by_cases ha : (a.id == fileId) = true
    · rw [List.find?_cons_of_pos (p := fun x : FileRec => x.id == fileId) _ ha] at h
      injection h with h
      subst h
      unfold approveFirst
      rw [if_pos ha]
      exact List.mem_cons_self _ _
    · rw [List.find?_cons_of_neg (p := fun x : FileRec => x.id == fileId) _
        (by simpa using ha)] at h
      unfold approveFirst
      rw [if_neg ha]
      exact List.mem_cons_of_mem _ (ih h)

/-- Helper: when the file ids are pairwise distinct, no record with the
removed id survives `removeFirst`. -/
theorem removeFirst_id_not_mem (fileId : String) (l : List FileRec)
    (hnd : (l.map FileRec.id).Nodup) :
    fileId ∉ (removeFirst fileId l).map FileRec.id := by
  induction l with
  | nil => simp [removeFirst]
  | cons a as ih =>
    rw [List.map_cons, List.nodup_cons] at hnd
    obtain ⟨hna, hnd'⟩ := hnd
    unfold removeFirst
    by_cases ha : (a.id == fileId) = true
    · rw [if_pos ha]
      have heq : a.id = fileId := by simpa using ha
      rw [← heq]
      exact hna
    · rw [if_neg ha, List.map_cons]
      intro hx
      rcases List.mem_cons.mp hx with h | h
      · exact ha (by simp [h])
      · exact ih hnd' h

/-- Helper: an id absent from the mapped ids of a list is absent from the
mapped ids of any filtering of it. -/
theorem not_mem_map_filter (p : FileRec → Bool) (fileId : String)
    (l : List FileRec) (h : fileId ∉ l.map FileRec.id) :
    fileId ∉ (l.filter p).map FileRec.id := by
  intro hx
  apply h
  obtain ⟨g, hg, hid⟩ := List.mem_map.mp hx
  exact List.mem_map.mpr ⟨g, List.mem_of_mem_filter hg, hid⟩

/-- Helper: a successful `approve_part000` call yields exactly the state
with the first matching record approved. -/
theorem approve_ok_state (st : St) (fileId adminId adminPassword : String)
    (st1 : St)
    (h : approve_part000 st fileId adminId adminPassword = (.ok (), st1)) :
    st1 = { st with files := approveFirst fileId st.files } := by
  unfold approve_part000 at h
  split at h
  · simp at h
  · split at h
    · simp at h
    · simpa [Prod.ext_iff] using (congrArg Prod.snd h).symm

/-- Helper: a successful `reject_part000` call yields exactly the state
with the first matching record spliced out. -/
theorem reject_ok_state (st : St) (fileId adminId adminPassword : String)
    (st2 : St)
    (h : reject_part000 st fileId adminId adminPassword = (.ok (), st2)) :
    st2 = { st with files := removeFirst fileId st.files } := by
  unfold reject_part000 at h
  split at h
  · simp at h
  · split at h
    · simp at h
    · simpa [Prod.ext_iff] using (congrArg Prod.snd h).symm

/-- C1: the claim says at most one upvote per user and file ever succeeds,
with later calls failing and the count frozen.  The `backend.js` revision's
`/upvote/:id` route keeps no vote ledger at all: starting from a ledger
with one approved file with zero upvotes, a first call succeeds with count
1 and an immediately repeated call by the same caller also succeeds,
returning count 2 instead of a conflict error. -/
theorem c1_upvoteById_counts_twice :
    (upvote_backendMeta [⟨"f1", "report.pdf", "alice", 0, 0, true⟩]
        "f1").1 = .ok 1
    ∧ (upvote_backendMeta
        (upvote_backendMeta [⟨"f1", "report.pdf", "alice", 0, 0, true⟩]
          "f1").2 "f1").1 = .ok 2 :=
  ⟨rfl, rfl⟩

/-- C2 counterexample: in the `part_000` revision, a ledger whose `users`
array holds an admin with id `a1`, and an upload whose `uploaderId` is that
admin, still produce a record with `isApproved = false` — the upload is
pending, not approved immediately as the claim states for admin
uploaders. -/
theorem c2_admin_upload_pending_counterexample :
    ((St.mk [⟨"a1", "admin", true, false⟩] [] []).users.find?
        (fun u => u.id == "a1" && u.isAdmin)).isSome = true
    ∧ (upload_part000 (St.mk [⟨"a1", "admin", true, false⟩] [] [])
        (some ⟨"x7", "report.pdf", "application/pdf", 2097152⟩)
        (some "a1") (some "admin") false).1
      = .ok (mkFileMeta ⟨"x7", "report.pdf", "application/pdf", 2097152⟩
          (some "a1") (some "admin") false)
    ∧ (mkFileMeta ⟨"x7", "report.pdf", "application/pdf", 2097152⟩
        (some "a1") (some "admin") false).isApproved = false :=
  ⟨rfl, rfl, rfl⟩

/-- C2 (amended): the admin auto-approval fast path exists only in the
`backend.js` meta revision, where the created record's `approved` flag is
true exactly when the uploader name lowercases to `admin`; in the
`part_000` revision every created record starts with `isApproved = false`,
including uploads by admin users. -/
theorem c2_upload_status_amended (fm : List Meta) (file : UploadedFile)
    (uploader : String) (st : St) (g : UploadedFile)
    (uploaderId uploaderName : Option String) (isAnonymous : Bool)
    (hinfo : uploaderId.isSome = true ∨ isAnonymous = true
      ∨ uploaderName.isSome = true) :
    (upload_backendMeta fm (some file) (some uploader)
        = (.ok (mkMeta file uploader), mkMeta file uploader :: fm)
      ∧ (mkMeta file uploader).approved
          = (jsToLowerCase uploader == "admin"))
    ∧ (upload_part000 st (some g) uploaderId uploaderName isAnonymous
        = (.ok (mkFileMeta g uploaderId uploaderName isAnonymous),
           { st with files :=
              st.files ++ [mkFileMeta g uploaderId uploaderName isAnonymous] })
      ∧ (mkFileMeta g uploaderId uploaderName isAnonymous).isApproved
          = false) := by
  refine ⟨⟨rfl, rfl⟩, ?_, rfl⟩
  have hguard : (uploaderId.isNone && !isAnonymous
      && uploaderName.isNone) = false := by
    rcases hinfo with h | h | h
    · cases uploaderId with
      | none => simp at h
      | some a => simp
    · simp [h]
    · cases uploaderName with
      | none => simp at h
      | some a => simp
  unfold upload_part000
  rw [hguard]
  simp

/-- C2 (amended) witness: concrete instances — an upload by uploader name
`Admin` in the meta revision is created approved, and an upload by a named
non-anonymous uploader in `part_000` is created pending. -/
theorem c2_upload_status_amended_witness :
    ((some "u1" : Option String).isSome = true ∨ (false : Bool) = true
      ∨ (some "bob" : Option String).isSome = true)
    ∧ upload_backendMeta []
        (some ⟨"x1", "r.pdf", "application/pdf", 5⟩) (some "Admin")
      = (.ok (mkMeta ⟨"x1", "r.pdf", "application/pdf", 5⟩ "Admin"),
         [mkMeta ⟨"x1", "r.pdf", "application/pdf", 5⟩ "Admin"])
    ∧ (mkMeta ⟨"x1", "r.pdf", "application/pdf", 5⟩ "Admin").approved
        = (jsToLowerCase "Admin" == "admin")
    ∧ upload_part000 (St.mk [] [] [])
        (some ⟨"f9", "notes.pdf", "application/pdf", 7⟩)
        (some "u1") (some "bob") false
      = (.ok (mkFileMeta ⟨"f9", "notes.pdf", "application/pdf", 7⟩
            (some "u1") (some "bob") false),
         St.mk []
           [mkFileMeta ⟨"f9", "notes.pdf", "application/pdf", 7⟩
             (some "u1") (some "bob") false] [])
    ∧ (mkFileMeta ⟨"f9", "notes.pdf", "application/pdf", 7⟩
        (some "u1") (some "bob") false).isApproved = false := by
  have h := c2_upload_status_amended []
    ⟨"x1", "r.pdf", "application/pdf", 5⟩ "Admin" (St.mk [] [] [])
    ⟨"f9", "notes.pdf", "application/pdf", 7⟩
    (some "u1") (some "bob") false (Or.inl rfl)
  exact ⟨Or.inl rfl, h.1.1, h.1.2, h.2.1, h.2.2⟩

/-- C4: the `part_000` revision's download route performs no
approval-status check.  In a ledger holding the non-admin user `u1` and the
pending (not approved) file `f1` whose blob is on disk, the download of
`f1` by `u1` succeeds in both `part_000` download variants instead of
failing with an authorization error. -/
theorem c4_pending_download_succeeds :
    ((St.mk [⟨"u1", "bob", false, false⟩]
        [⟨"f1", "notes.pdf", some "u1", some "bob", false, false, 0⟩]
        []).files.find? (fun f => f.id == "f1"))
      = some ⟨"f1", "notes.pdf", some "u1", some "bob", false, false, 0⟩
    ∧ (⟨"f1", "notes.pdf", some "u1", some "bob", false, false, 0⟩
        : FileRec).isApproved = false
    ∧ (⟨"u1", "bob", false, false⟩ : User).isAdmin = false
    ∧ download_part000
        (St.mk [⟨"u1", "bob", false, false⟩]
          [⟨"f1", "notes.pdf", some "u1", some "bob", false, false, 0⟩] [])
        "f1" "u1" = .ok "notes.pdf"
    ∧ downloadV2_part000
        (St.mk [⟨"u1", "bob", false, false⟩]
          [⟨"f1", "notes.pdf", some "u1", some "bob", false, false, 0⟩] [])
        ["f1"] "f1" "u1" = .ok "notes.pdf" :=
  ⟨rfl, rfl, rfl, rfl, rfl⟩

/-- C5 counterexample: in the `part_000` first revision, with valid admin
credentials and a file `f1` whose status is already approved (not
pending), the approve route succeeds instead of failing with a conflict
error. -/
theorem c5_reapprove_succeeds_counterexample :
    (getAdminByIdAndPassword [⟨"a1", "admin", true, false⟩]
        "a1" "Shiro").isSome = true
    ∧ ((St.mk [⟨"a1", "admin", true, false⟩]
        [⟨"f1", "notes.pdf", none, none, false, true, 0⟩] []).files.find?
        (fun f => f.id == "f1"))
      = some ⟨"f1", "notes.pdf", none, none, false, true, 0⟩
    ∧ (⟨"f1", "notes.pdf", none, none, false, true, 0⟩
        : FileRec).isApproved = true
    ∧ (approve_part000
        (St.mk [⟨"a1", "admin", true, false⟩]
          [⟨"f1", "notes.pdf", none, none, false, true, 0⟩] [])
        "f1" "a1" "Shiro").1 = .ok () :=
  ⟨rfl, rfl, rfl, rfl⟩

/-- C6: the `part_000` revision's upvote route checks only that the user
and the file exist, not that the file is approved: upvoting the pending
file `f1` succeeds with count 1 and records the vote, instead of failing
with a not-found error as the claim states; and a missing file yields a
400 `Invalid user or file` response, not a 404. -/
theorem c6_pending_upvote_succeeds :
    ((St.mk [⟨"u1", "bob", false, false⟩]
        [⟨"f1", "notes.pdf", some "u1", some "bob", false, false, 0⟩]
        []).files.find? (fun f => f.id == "f1"))
      = some ⟨"f1", "notes.pdf", some "u1", some "bob", false, false, 0⟩
    ∧ (⟨"f1", "notes.pdf", some "u1", some "bob", false, false, 0⟩
        : FileRec).isApproved = false
    ∧ upvote_part000
        (St.mk [⟨"u1", "bob", false, false⟩]
          [⟨"f1", "notes.pdf", some "u1", some "bob", false, false, 0⟩] [])
        "u1" "f1" "v1"
      = (.ok 1,
         St.mk [⟨"u1", "bob", false, false⟩]
           [⟨"f1", "notes.pdf", some "u1", some "bob", false, false, 1⟩]
           [⟨"v1", "u1", "f1"⟩])
    ∧ (upvote_part000 (St.mk [⟨"u1", "bob", false, false⟩] [] [])
        "u1" "f1" "v1").1 = .error (400, "Invalid user or file") :=
  ⟨rfl, rfl, rfl, rfl⟩

/-- C3: in both the `part_000` and `part_002` list routes, an admin caller
receives the whole `files` array, and a non-admin caller receives exactly
the approved records — membership in the non-admin listing is equivalent
to membership in the ledger with approved status. -/
theorem c3_list_visibility (st : St) (userId : String) (u : User)
    (st2 : St2) (userId2 : String)
    (hu : st.users.find? (fun x => x.id == userId) = some u) :
    (u.isAdmin = true → listFiles_part000 st userId = .ok st.files)
    ∧ (u.isAdmin = false →
        listFiles_part000 st userId
          = .ok (st.files.filter fun f => f.isApproved)
        ∧ ∀ f : FileRec,
            f ∈ st.files.filter (fun f => f.isApproved)
              ↔ f ∈ st.files ∧ f.isApproved = true)
    ∧ (userIsAdmin2 st2 userId2 = true →
        listFiles_part002 st2 userId2 = st2.files)
    ∧ (userIsAdmin2 st2 userId2 = false →
        ∀ f : File2, f ∈ listFiles_part002 st2 userId2
          ↔ f ∈ st2.files ∧ f.isApproved = true) := by
  refine ⟨?_, ?_, ?_, ?_⟩
  · intro h
    unfold listFiles_part000
    rw [hu]
    simp [h]
  · intro h
    constructor
    · unfold listFiles_part000
      rw [hu]
      simp [h]
    · intro f
      simp [List.mem_filter]
  · intro h
    unfold listFiles_part002
    simp [h]
  · intro h
    intro f
    unfold listFiles_part002
    simp [h, List.mem_filter]

/-- C3 witness: a concrete ledger with one approved and one pending file —
the non-admin caller `u1` receives exactly the approved listing, and the
pending file belongs to it iff it is approved (it is not). -/
theorem c3_list_visibility_witness :
    ((St.mk [⟨"u1", "bob", false, false⟩]
        [⟨"fA", "a.pdf", none, none, false, true, 0⟩,
         ⟨"fP", "p.pdf", none, none, false, false, 0⟩] []).users.find?
        (fun x => x.id == "u1")) = some ⟨"u1", "bob", false, false⟩
    ∧ listFiles_part000
        (St.mk [⟨"u1", "bob", false, false⟩]
          [⟨"fA", "a.pdf", none, none, false, true, 0⟩,
           ⟨"fP", "p.pdf", none, none, false, false, 0⟩] []) "u1"
      = .ok ((St.mk [⟨"u1", "bob", false, false⟩]
          [⟨"fA", "a.pdf", none, none, false, true, 0⟩,
           ⟨"fP", "p.pdf", none, none, false, false, 0⟩] []).files.filter
            fun f => f.isApproved)
    ∧ ((⟨"fP", "p.pdf", none, none, false, false, 0⟩ : FileRec)
          ∈ (St.mk [⟨"u1", "bob", false, false⟩]
            [⟨"fA", "a.pdf", none, none, false, true, 0⟩,
             ⟨"fP", "p.pdf", none, none, false, false, 0⟩] []).files.filter
              (fun f => f.isApproved)
        ↔ (⟨"fP", "p.pdf", none, none, false, false, 0⟩ : FileRec)
            ∈ (St.mk [⟨"u1", "bob", false, false⟩]
              [⟨"fA", "a.pdf", none, none, false, true, 0⟩,
               ⟨"fP", "p.pdf", none, none, false, false, 0⟩] []).files
          ∧ (⟨"fP", "p.pdf", none, none, false, false, 0⟩
              : FileRec).isApproved = true) := by
  have h := c3_list_visibility
    (St.mk [⟨"u1", "bob", false, false⟩]
      [⟨"fA", "a.pdf", none, none, false, true, 0⟩,
       ⟨"fP", "p.pdf", none, none, false, false, 0⟩] [])
    "u1" ⟨"u1", "bob", false, false⟩ (St2.mk [] [] []) "x" rfl
  exact ⟨rfl, (h.2.1 rfl).1, (h.2.1 rfl).2
    ⟨"fP", "p.pdf", none, none, false, false, 0⟩⟩

/-- C5 (amended): in both `part_000` approve revisions, a caller without
valid admin credentials gets a 403 and a missing file a 404, with the
state unchanged; on a pending file both succeed and approve the first
matching record.  The conflict rule holds only in the later revision,
which answers 400 `File already approved` on a non-pending record, while
the first revision re-approves an already-approved record successfully. -/
theorem c5_approve_contract_amended (st : St)
    (fileId adminId adminPassword : String) :
    (getAdminByIdAndPassword st.users adminId adminPassword = none →
        approve_part000 st fileId adminId adminPassword
          = (.error (403, "Admin only or wrong password"), st)
      ∧ approveV2_part000 st fileId adminId adminPassword
          = (.error (403, "Admin only or wrong password"), st))
    ∧ ((getAdminByIdAndPassword st.users adminId adminPassword).isSome
          = true →
        (st.files.find? (fun f => f.id == fileId) = none →
            approve_part000 st fileId adminId adminPassword
              = (.error (404, "File not found"), st)
          ∧ approveV2_part000 st fileId adminId adminPassword
              = (.error (404, "File not found"), st))
        ∧ ∀ f : FileRec,
            st.files.find? (fun x => x.id == fileId) = some f →
            (f.isApproved = true →
                approveV2_part000 st fileId adminId adminPassword
                  = (.error (400, "File already approved"), st)
              ∧ (approve_part000 st fileId adminId adminPassword).1
                  = .ok ())
            ∧ (f.isApproved = false →
                approveV2_part000 st fileId adminId adminPassword
                  = (.ok (), { st with
                      files := approveFirst fileId st.files })
              ∧ approve_part000 st fileId adminId adminPassword
                  = (.ok (), { st with
                      files := approveFirst fileId st.files })
              ∧ (approveFirst fileId st.files).find?
                    (fun g => g.id == fileId)
                  = some { f with isApproved := true })) := by
  constructor
  · intro h
    unfold approve_part000 approveV2_part000
    rw [h]
    exact ⟨rfl, rfl⟩
  · intro hadm
    have hns : (getAdminByIdAndPassword st.users adminId
        adminPassword).isNone = false := by
      rw [Option.isNone_eq_false_iff, Option.isSome_iff_exists]
      rw [Option.isSome_iff_exists] at hadm
      exact hadm
    constructor
    · intro hnf
      unfold approve_part000 approveV2_part000
      rw [hns, hnf]
      exact ⟨rfl, rfl⟩
    · intro f hf
      constructor
      · intro happ
        unfold approve_part000 approveV2_part000
        rw [hns, hf]
        simp [happ]
      · intro hpend
        unfold approve_part000 approveV2_part000
        rw [hns, hf]
        simp [hpend]
        exact approveFirst_find fileId st.files f hf

/-- C5 (amended) witness: concrete run — valid admin credentials and a
pending file `f1`; both approve variants succeed and the record is found
approved afterwards. -/
theorem c5_approve_contract_amended_witness :
    (getAdminByIdAndPassword [⟨"a1", "admin", true, false⟩]
        "a1" "Shiro").isSome = true
    ∧ ((St.mk [⟨"a1", "admin", true, false⟩]
        [⟨"f1", "notes.pdf", none, none, false, false, 0⟩] []).files.find?
        (fun x => x.id == "f1"))
      = some ⟨"f1", "notes.pdf", none, none, false, false, 0⟩
    ∧ approveV2_part000
        (St.mk [⟨"a1", "admin", true, false⟩]
          [⟨"f1", "notes.pdf", none, none, false, false, 0⟩] [])
        "f1" "a1" "Shiro"
      = (.ok (), St.mk [⟨"a1", "admin", true, false⟩]
          [⟨"f1", "notes.pdf", none, none, false, true, 0⟩] [])
    ∧ approve_part000
        (St.mk [⟨"a1", "admin", true, false⟩]
          [⟨"f1", "notes.pdf", none, none, false, false, 0⟩] [])
        "f1" "a1" "Shiro"
      = (.ok (), St.mk [⟨"a1", "admin", true, false⟩]
          [⟨"f1", "notes.pdf", none, none, false, true, 0⟩] [])
    ∧ ((approveFirst "f1"
        [⟨"f1", "notes.pdf", none, none, false, false, 0⟩]).find?
        (fun g => g.id == "f1"))
      = some ⟨"f1", "notes.pdf", none, none, false, true, 0⟩ := by
  have h := ((c5_approve_contract_amended
    (St.mk [⟨"a1", "admin", true, false⟩]
      [⟨"f1", "notes.pdf", none, none, false, false, 0⟩] [])
    "f1" "a1" "Shiro").2 rfl).2
    ⟨"f1", "notes.pdf", none, none, false, false, 0⟩ rfl
  exact ⟨rfl, rfl, (h.2 rfl).1, (h.2 rfl).2.1, (h.2 rfl).2.2⟩

/-- C7: in the `part_000` revision, when the ledger's file ids are
pairwise distinct, a successful approve of `fileId` makes the approved
copy of the record visible in an immediately following non-admin listing,
and a successful reject removes the record so that no surviving record —
in the full array an admin sees or in the approved filtering a non-admin
sees — carries `fileId`. -/
theorem c7_approve_reject_list (st : St)
    (fileId adminId adminPassword userId : String) (u : User) (f : FileRec)
    (st1 st2 : St)
    (hu : st.users.find? (fun x => x.id == userId) = some u)
    (hna : u.isAdmin = false)
    (hf : st.files.find? (fun x => x.id == fileId) = some f)
    (hnd : (st.files.map FileRec.id).Nodup) :
    (approve_part000 st fileId adminId adminPassword = (.ok (), st1) →
        listFiles_part000 st1 userId
          = .ok (st1.files.filter fun x => x.isApproved)
        ∧ { f with isApproved := true }
            ∈ st1.files.filter (fun x => x.isApproved))
    ∧ (reject_part000 st fileId adminId adminPassword = (.ok (), st2) →
        (∀ userId2 : String, ∀ u2 : User,
            st2.users.find? (fun x => x.id == userId2) = some u2 →
            listFiles_part000 st2 userId2
              = .ok (if u2.isAdmin then st2.files
                     else st2.files.filter fun x => x.isApproved))
        ∧ fileId ∉ st2.files.map FileRec.id
        ∧ fileId ∉ (st2.files.filter
            fun x => x.isApproved).map FileRec.id) := by
  constructor
  · intro happ
    have hst1 := approve_ok_state st fileId adminId adminPassword st1 happ
    subst hst1
    constructor
    · unfold listFiles_part000
      rw [show ({ st with files := approveFirst fileId st.files }
          : St).users = st.users from rfl, hu]
      simp [hna]
    · rw [List.mem_filter]
      exact ⟨approveFirst_mem fileId st.files f hf, rfl⟩
  · intro hrej
    have hst2 := reject_ok_state st fileId adminId adminPassword st2 hrej
    subst hst2
    refine ⟨?_, ?_, ?_⟩
    · intro userId2 u2 hu2
      unfold listFiles_part000
      rw [show ({ st with files := removeFirst fileId st.files }
          : St).users = st.users from rfl] at hu2 ⊢
      rw [hu2]
    · exact removeFirst_id_not_mem fileId st.files hnd
    · exact not_mem_map_filter _ fileId _
        (removeFirst_id_not_mem fileId st.files hnd)

/-- C7 witness: concrete ledger with the admin `a1`, the non-admin `u1`
and the pending file `f1`.  Approving `f1` makes it appear (approved) in
`u1`'s listing; rejecting `f1` on the same initial ledger leaves no record
with its id in either the full or the approved-filtered array. -/
theorem c7_approve_reject_list_witness :
    ((St.mk [⟨"a1", "admin", true, false⟩, ⟨"u1", "bob", false, false⟩]
        [⟨"f1", "notes.pdf", some "u1", some "bob", false, false, 0⟩]
        []).files.map FileRec.id).Nodup
    ∧ listFiles_part000
        (St.mk [⟨"a1", "admin", true, false⟩, ⟨"u1", "bob", false, false⟩]
          [⟨"f1", "notes.pdf", some "u1", some "bob", false, true, 0⟩] [])
        "u1"
      = .ok [⟨"f1", "notes.pdf", some "u1", some "bob", false, true, 0⟩]
    ∧ (⟨"f1", "notes.pdf", some "u1", some "bob", false, true, 0⟩
        : FileRec)
        ∈ List.filter (fun x : FileRec => x.isApproved)
            [⟨"f1", "notes.pdf", some "u1", some "bob", false, true, 0⟩]
    ∧ "f1" ∉ ([] : List FileRec).map FileRec.id := by
  have h := c7_approve_reject_list
    (St.mk [⟨"a1", "admin", true, false⟩, ⟨"u1", "bob", false, false⟩]
      [⟨"f1", "notes.pdf", some "u1", some "bob", false, false, 0⟩] [])
    "f1" "a1" "Shiro" "u1" ⟨"u1", "bob", false, false⟩
    ⟨"f1", "notes.pdf", some "u1", some "bob", false, false, 0⟩
    (St.mk [⟨"a1", "admin", true, false⟩, ⟨"u1", "bob", false, false⟩]
      [⟨"f1", "notes.pdf", some "u1", some "bob", false, true, 0⟩] [])
    (St.mk [⟨"a1", "admin", true, false⟩, ⟨"u1", "bob", false, false⟩]
      [] [])
    rfl rfl rfl (by decide)
  exact ⟨by decide, (h.1 rfl).1, (h.1 rfl).2, (h.2 rfl).2.1⟩

/-- C8: an upload whose declared mime type is outside the allowed list, or
whose size exceeds 10,485,760 bytes, is dropped by the multer filter and
the handler answers 400 with the `files` ledger unchanged — no record is
ever appended. -/
theorem c8_blob_filter_rejects (st : St) (file : UploadedFile)
    (uploaderId uploaderName : Option String) (isAnonymous : Bool)
    (h : allowedTypes.contains file.mimetype = false
      ∨ 10485760 < file.size) :
    maxFileSize = 10485760
    ∧ multerAccept file.mimetype file.size = false
    ∧ uploadWithFilter_part000 st file uploaderId uploaderName isAnonymous
        = (.error (400, "No file uploaded"), st) := by
  have hacc : multerAccept file.mimetype file.size = false := by
    unfold multerAccept
    rcases h with h | h
    · rw [h, Bool.false_and]
    · have hlt : ¬ file.size ≤ maxFileSize := by
        unfold maxFileSize
        omega
      simp [hlt]
  refine ⟨rfl, hacc, ?_⟩
  unfold uploadWithFilter_part000
  rw [hacc]
  rfl

/-- C8 witness: a 1000-byte `.exe`-style upload (mime
`application/x-msdownload`) and an 11 MB pdf are both rejected without
touching the ledger. -/
theorem c8_blob_filter_rejects_witness :
    (allowedTypes.contains "application/x-msdownload" = false
      ∨ 10485760 < 1000)
    ∧ uploadWithFilter_part000 (St.mk [] [] [])
        ⟨"e1", "virus.exe", "application/x-msdownload", 1000⟩
        (some "u1") none false
      = (.error (400, "No file uploaded"), St.mk [] [] [])
    ∧ (allowedTypes.contains "application/pdf" = false
      ∨ 10485760 < 11534336)
    ∧ uploadWithFilter_part000 (St.mk [] [] [])
        ⟨"e2", "big.pdf", "application/pdf", 11534336⟩
        (some "u1") none false
      = (.error (400, "No file uploaded"), St.mk [] [] []) := by
  refine ⟨Or.inl (by decide), ?_, Or.inr (by decide), ?_⟩
  · exact (c8_blob_filter_rejects (St.mk [] [] [])
      ⟨"e1", "virus.exe", "application/x-msdownload", 1000⟩
      (some "u1") none false (Or.inl (by decide))).2.2
  · exact (c8_blob_filter_rejects (St.mk [] [] [])
      ⟨"e2", "big.pdf", "application/pdf", 11534336⟩
      (some "u1") none false (Or.inr (by decide))).2.2

/-- C9: in the `part_000` revision (and the `backend.js` mock), a caller
id that resolves to no known user makes both download and list fail with
403 `User not found`, whatever the `files` ledger holds — in particular
even when the requested file exists and is approved. -/
theorem c9_unknown_caller_rejected (st : St) (fileId userId : String)
    (users : List User)
    (h : st.users.find? (fun u => u.id == userId) = none)
    (h2 : users.find? (fun u => u.id == userId) = none) :
    download_part000 st fileId userId = .error (403, "User not found")
    ∧ listFiles_part000 st userId = .error (403, "User not found")
    ∧ download_backendMock users fileId userId
        = .error (403, "User not found") := by
  unfold download_part000 listFiles_part000 download_backendMock
  rw [h, h2]
  exact ⟨rfl, rfl, rfl⟩

/-- C9 witness: the ledger holds the approved file `f1`, yet the unknown
caller `ghost` is refused by both download and list. -/
theorem c9_unknown_caller_rejected_witness :
    ((St.mk [⟨"u1", "bob", false, false⟩]
        [⟨"f1", "notes.pdf", some "u1", some "bob", false, true, 0⟩]
        []).users.find? (fun u => u.id == "ghost")) = none
    ∧ ((St.mk [⟨"u1", "bob", false, false⟩]
        [⟨"f1", "notes.pdf", some "u1", some "bob", false, true, 0⟩]
        []).files.find? (fun f => f.id == "f1"))
      = some ⟨"f1", "notes.pdf", some "u1", some "bob", false, true, 0⟩
    ∧ download_part000
        (St.mk [⟨"u1", "bob", false, false⟩]
          [⟨"f1", "notes.pdf", some "u1", some "bob", false, true, 0⟩] [])
        "f1" "ghost" = .error (403, "User not found")
    ∧ listFiles_part000
        (St.mk [⟨"u1", "bob", false, false⟩]
          [⟨"f1", "notes.pdf", some "u1", some "bob", false, true, 0⟩] [])
        "ghost" = .error (403, "User not found")
    ∧ download_backendMock [⟨"u1", "bob", false, false⟩] "f1" "ghost"
        = .error (403, "User not found") := by
  have h := c9_unknown_caller_rejected
    (St.mk [⟨"u1", "bob", false, false⟩]
      [⟨"f1", "notes.pdf", some "u1", some "bob", false, true, 0⟩] [])
    "f1" "ghost" [⟨"u1", "bob", false, false⟩] rfl rfl
  exact ⟨rfl, rfl, h.1, h.2.1, h.2.2⟩

/-- C10: the `part_000` reject route never touches the `votes` array (in
any branch), and concretely: after rejecting the approved file `f1`, which
had one recorded upvote, the record is gone while the vote survives, so
the admin stats report `totalUpvotes = 1` — strictly more than the sum of
the upvote counters over the surviving (empty) ledger. -/
theorem c10_reject_preserves_votes :
    (∀ (st : St) (fileId adminId adminPassword : String),
        ((reject_part000 st fileId adminId adminPassword).2).votes
          = st.votes)
    ∧ reject_part000
        (St.mk [⟨"a1", "admin", true, false⟩, ⟨"u1", "bob", false, false⟩]
          [⟨"f1", "notes.pdf", some "u1", some "bob", false, true, 1⟩]
          [⟨"v1", "u1", "f1"⟩])
        "f1" "a1" "Shiro"
      = (.ok (),
         St.mk [⟨"a1", "admin", true, false⟩, ⟨"u1", "bob", false, false⟩]
           [] [⟨"v1", "u1", "f1"⟩])
    ∧ adminStats_part000
        (St.mk [⟨"a1", "admin", true, false⟩, ⟨"u1", "bob", false, false⟩]
          [] [⟨"v1", "u1", "f1"⟩])
        "a1" "Shiro" = .ok ⟨0, 0, 0, 1⟩
    ∧ sumUpvotes
        (St.mk [⟨"a1", "admin", true, false⟩, ⟨"u1", "bob", false, false⟩]
          [] [⟨"v1", "u1", "f1"⟩]).files < 1 := by
  refine ⟨?_, rfl, rfl, by decide⟩
  intro st fileId adminId adminPassword
  unfold reject_part000
  split
  · rfl
  · split
    · rfl
    · rfl
